import Mathlib

/-!
Verification of the BookAI routing core against its natural-language
specification.  The definitions below are a shallow embedding of the
Python sources:

* Analysis and Validated embed the routing-decision dictionaries of
  bookai_adk/core/llm_router.py; validate_analysis embeds the method
  LLMRouter._validate_analysis and fallback_analysis embeds
  LLMRouter._fallback_analysis (keyword classifier).
* process_query and process_query_stream embed the dispatch logic of
  bookai_adk/core/orchestrator.py (AgentOrchestrator.process_query and
  AgentOrchestrator.process_query_stream).  The external LLM router
  instance used by the orchestrator (VertexLLMRouter) is not part of the
  sources, so process_query is parameterised over it; the theorems about
  the explicit-agent path hold for every such router.
* finance_generate_response embeds FinanceAgent._generate_response of
  bookai_adk/agents/finance.py (a deterministic canned-text generator).
* chat_completions embeds the chat-completion route of
  bookai_adk/api/routes.py together with the Python try/except semantics
  of its blanket exception handler.

Strings are modelled as lists of characters where character-level
processing (lower-casing, substring search, whitespace splitting)
matters; confidences are modelled as rational numbers.
-/

namespace BookAI

/-- The set of registered agent identifiers, as hard-coded in
LLMRouter._validate_analysis (llm_router.py lines 155 and 160). -/
def valid_agents : List String := ["finance", "code"]

/-- An analysis dictionary as consumed by LLMRouter._validate_analysis:
each of the seven relevant keys may be present or absent.  Absent keys
are replaced by defaults via dict.get, embedded by Option.getD. -/
structure Analysis where
  primary_agent : Option String
  confidence : Option ℚ
  is_multi_domain : Option Bool
  secondary_agents : Option (List String)
  reasoning : Option String
  query_type : Option String
  key_topics : Option (List String)
deriving DecidableEq

/-- A validated routing decision: the dictionary returned by
LLMRouter._validate_analysis or LLMRouter._fallback_analysis, in which
all seven keys are present. -/
structure Validated where
  primary_agent : String
  confidence : ℚ
  is_multi_domain : Bool
  secondary_agents : List String
  reasoning : String
  query_type : String
  key_topics : List String
deriving DecidableEq

/-- The filter predicate of the secondary_agents list comprehension in
LLMRouter._validate_analysis (lines 161-164): keep an entry when it is a
registered identifier different from the validated primary agent. -/
def sec_pred (primary : String) (ag : String) : Bool :=
  decide (ag ∈ valid_agents) && decide (ag ≠ primary)

/-- Embeds LLMRouter._validate_analysis (llm_router.py lines 141-166):
fill defaults for missing keys, clamp confidence into the unit interval,
force an unknown primary agent to finance with confidence 0.3, and
filter secondary_agents down to registered identifiers distinct from the
primary.  The pair pc carries the primary agent and confidence after the
unknown-primary fix-up of lines 154-157. -/
def validate_analysis (a : Analysis) : Validated :=
  let primary0 := a.primary_agent.getD "finance"
  let conf0 : ℚ := max 0 (min 1 (a.confidence.getD (1/2)))
  let pc : String × ℚ :=
    if primary0 ∈ valid_agents then (primary0, conf0) else ("finance", 3/10)
  let secondary := (a.secondary_agents.getD []).filter (sec_pred pc.1)
  ⟨pc.1, pc.2, a.is_multi_domain.getD false, secondary,
    a.reasoning.getD "Default routing", a.query_type.getD "simple",
    a.key_topics.getD []⟩

/-- Re-reads a validated decision as an analysis dictionary in which
every key is present, mirroring that the dictionary returned by
_validate_analysis can be fed back to _validate_analysis. -/
def toAnalysis (v : Validated) : Analysis :=
  ⟨some v.primary_agent, some v.confidence, some v.is_multi_domain,
    some v.secondary_agents, some v.reasoning, some v.query_type,
    some v.key_topics⟩

/-- Embeds the ASCII case mapping performed by Python str.lower on the
characters relevant to keyword matching (all keywords are ASCII). -/
def pyToLower (c : Char) : Char :=
  if 'A' ≤ c ∧ c ≤ 'Z' then Char.ofNat (c.toNat + 32) else c

/-- Lower-cases a query character by character, embedding
query.lower() at llm_router.py line 170. -/
def lowerQuery (q : List Char) : List Char := q.map pyToLower

/-- Boolean test that the first list is an initial segment of the
second, used to embed Python substring containment. -/
def startsWithL : List Char → List Char → Bool
  | [], _ => true
  | _ :: _, [] => false
  | a :: as, b :: bs => a == b && startsWithL as bs

/-- Embeds the Python containment test needle in hay on strings:
true when the first list occurs contiguously inside the second. -/
def substr : List Char → List Char → Bool
  | n, [] => n.isEmpty
  | n, c :: t => startsWithL n (c :: t) || substr n t

/-- The finance keyword list of LLMRouter._fallback_analysis
(llm_router.py lines 173-181). -/
def finance_keywords : List String :=
  ["etf", "invest", "investment", "stock", "bond", "portfolio",
   "index fund", "mutual fund", "401k", "ira", "retirement",
   "dividend", "compound interest", "savings", "budget", "financial",
   "money", "market", "economy", "tax", "wealth", "trading", "trade",
   "trader", "bot", "algorithm trading", "forex", "crypto", "price",
   "profit", "loss", "risk", "strategy", "analysis", "buy", "sell",
   "broker", "exchange", "volatility", "return", "yield"]

/-- The code keyword list of LLMRouter._fallback_analysis
(llm_router.py lines 183-190). -/
def code_keywords : List String :=
  ["python", "javascript", "java", "code", "function", "api",
   "algorithm", "programming", "software", "debug", "framework",
   "database", "sql", "rest", "web development", "class", "git",
   "docker", "deploy", "server", "client", "frontend", "backend",
   "bot", "script", "automation", "library", "package", "build",
   "develop", "implementation", "logic", "data", "scraping"]

/-- Number of keywords of a list contained in the lower-cased query,
embedding the generator expressions at llm_router.py lines 192-193. -/
def keywordScore (kws : List String) (ql : List Char) : Nat :=
  (kws.filter (fun k => substr k.data ql)).length

/-- finance_score of llm_router.py line 192. -/
def finance_score (q : List Char) : Nat :=
  keywordScore finance_keywords (lowerQuery q)

/-- code_score of llm_router.py line 193. -/
def code_score (q : List Char) : Nat :=
  keywordScore code_keywords (lowerQuery q)

/-- Embeds LLMRouter._fallback_analysis (llm_router.py lines 168-219),
the keyword classifier used when the LLM is unavailable. -/
def fallback_analysis (q : List Char) : Validated :=
  let fs := finance_score q
  let cs := code_score q
  let primary : String :=
    if cs < fs then "finance" else if fs < cs then "code" else "finance"
  let confidence : ℚ :=
    if cs < fs then min (8/10) (4/10 + (fs : ℚ) * (1/10))
    else if fs < cs then min (8/10) (4/10 + (cs : ℚ) * (1/10))
    else 3/10
  let is_multi : Bool := decide (0 < fs) && decide (0 < cs)
  let secondary : List String :=
    if is_multi then [if primary = "finance" then "code" else "finance"]
    else []
  ⟨primary, confidence, is_multi, secondary,
    "Keyword-based routing (fallback mode)", "simple", []⟩

/-- Characters treated as whitespace by Python str.split() on the ASCII
range (space, tab, newline, carriage return, vertical tab, form feed). -/
def isPySpace (c : Char) : Bool :=
  c == ' ' || c == '\t' || c == '\n' || c == '\r' || c == '\x0b' || c == '\x0c'

/-- Accumulator loop for pySplit: walks the text, collecting the current
word in reverse, and emits maximal nonempty runs of non-whitespace. -/
def splitWs : List Char → List Char → List (List Char)
  | [], cur => if cur.isEmpty then [] else [cur.reverse]
  | c :: cs, cur =>
    if isPySpace c then
      if cur.isEmpty then splitWs cs [] else cur.reverse :: splitWs cs []
    else splitWs cs (c :: cur)

/-- Embeds Python response.split() with no separator argument
(orchestrator.py line 151): split on runs of whitespace, discarding
empty pieces, so leading, trailing and repeated whitespace vanish. -/
def pySplit (s : List Char) : List (List Char) := splitWs s []

/-- Embeds the Python expression joining words with single spaces, as in
the chunk construction at orchestrator.py line 155. -/
def joinWords : List (List Char) → List Char
  | [] => []
  | [w] => w
  | w :: ws => w ++ ' ' :: joinWords ws

/-- Embeds the chunking loop of AgentOrchestrator.process_query_stream
(orchestrator.py lines 151-159) with the source's fixed chunk size of
five words unrolled into patterns: the word list is consumed five words
at a time, each chunk is its words joined by single spaces, and a
trailing space is appended exactly when further words remain (the
condition i + chunk_size < len(words) of line 156). -/
def buildChunks : List (List Char) → List (List Char)
  | [] => []
  | w1 :: w2 :: w3 :: w4 :: w5 :: w6 :: rest =>
    (joinWords [w1, w2, w3, w4, w5] ++ [' ']) :: buildChunks (w6 :: rest)
  | ws => [joinWords ws]

/-- Outcome of one orchestrator dispatch: the response text, the
resolved primary agent name, and whether the intelligent router was
invoked on this path. -/
structure DispatchResult where
  response : List Char
  agent_name : String
  router_called : Bool
deriving DecidableEq

/-- Embeds AgentOrchestrator.process_query (orchestrator.py lines
67-138).  The orchestrator's router object (VertexLLMRouter, not among
the sources) is passed in as the pair of oracles analyze (its
analyze_query) and routeMulti (its route_multi_domain_query); agents
maps an agent name and a query to that agent's response text.  ctxModel
is context.get("model", "").  On the two explicit-agent paths the
routing analysis is None, so the multi-domain branch is skipped and the
router is never consulted; router_called records whether the
intelligent-routing branch ran. -/
def process_query (analyze : List Char → Validated)
    (routeMulti : List Char → Validated → List Char)
    (agents : String → List Char → List Char)
    (query : List Char) (ctxModel : String) : DispatchResult :=
  if ctxModel = "finance-agent" then
    ⟨agents "finance" query, "finance", false⟩
  else if ctxModel = "code-agent" then
    ⟨agents "code" query, "code", false⟩
  else
    let analysis := analyze query
    if analysis.is_multi_domain then
      ⟨routeMulti query analysis, analysis.primary_agent, true⟩
    else
      ⟨agents analysis.primary_agent query, analysis.primary_agent, true⟩

/-- Embeds AgentOrchestrator.process_query_stream (orchestrator.py
lines 140-163): compute the full non-streaming response, then emit it
as the finite sequence of five-word chunks produced by buildChunks. -/
def process_query_stream (analyze : List Char → Validated)
    (routeMulti : List Char → Validated → List Char)
    (agents : String → List Char → List Char)
    (query : List Char) (ctxModel : String) : List (List Char) :=
  buildChunks (pySplit (process_query analyze routeMulti agents query ctxModel).response)

/-- Canned ETF answer of FinanceAgent._generate_response
(finance.py lines 44-52). -/
def finance_etf_text : String :=
  "An ETF (Exchange-Traded Fund) is an investment fund that trades on stock exchanges like individual stocks. ETFs typically track an index, commodity, bonds, or a basket of assets. Key benefits include:\n\n• Diversification across many holdings\n• Lower expense ratios than mutual funds  \n• Intraday trading flexibility\n• Tax efficiency\n• Transparency of holdings\n\nPopular ETFs include SPY (S&P 500), VTI (Total Stock Market), and QQQ (Nasdaq 100). They\x27re excellent for passive investing strategies."

/-- Canned investing answer of FinanceAgent._generate_response
(finance.py lines 55-65). -/
def finance_invest_text : String :=
  "Here are fundamental investment principles to consider:\n\n• Start early - compound interest is powerful\n• Diversify your portfolio across asset classes\n• Keep costs low with index funds/ETFs\n• Dollar-cost averaging reduces timing risk\n• Emergency fund before investing (3-6 months expenses)\n• Consider your risk tolerance and time horizon\n• Regular rebalancing maintains target allocation\n\nPopular beginner strategies include target-date funds or simple three-fund portfolios (US stocks, international stocks, bonds)."

/-- Canned index-fund answer of FinanceAgent._generate_response
(finance.py lines 68-81). -/
def finance_index_text : String :=
  "Index funds are mutual funds designed to track a specific market index like the S&P 500. Benefits include:\n\n• Broad market diversification\n• Low expense ratios (often under 0.1%)\n• Consistent market returns\n• No active management risk\n• Automatic rebalancing\n\nPopular options:\n• Vanguard Total Stock Market (VTSAX)\n• Fidelity Total Market (FZROX) \n• Schwab Total Stock Market (SWTSX)\n\nIndex funds are ideal for long-term, passive investing strategies."

/-- Head of the default answer of FinanceAgent._generate_response
(finance.py line 84), up to the interpolated query. -/
def finance_default_head : String :=
  "I\x27m FinanceAgent, specialized in financial advice. Your query: \""

/-- Tail of the default answer of FinanceAgent._generate_response
(finance.py lines 84-94), after the interpolated query. -/
def finance_default_tail : String :=
  "\"\n\nI can help with:\n• Investment strategies and portfolio allocation\n• ETFs, mutual funds, and index fund selection\n• Retirement planning (401k, IRA, Roth IRA)\n• Market analysis and economic indicators\n• Personal finance and budgeting tips\n• Risk management and insurance\n\nPlease feel free to ask specific financial questions!"

/-- Embeds FinanceAgent._generate_response (finance.py lines 39-94):
a deterministic canned response chosen by substring tests on the
lower-cased query. -/
def finance_generate_response (query : List Char) : List Char :=
  let ql := lowerQuery query
  if substr "etf".data ql then finance_etf_text.data
  else if substr "invest".data ql || substr "investment".data ql then
    finance_invest_text.data
  else if substr "index fund".data ql then finance_index_text.data
  else finance_default_head.data ++ query ++ finance_default_tail.data

/-- Agent lookup table exposing the embedded finance agent.  Theorems
using this table dispatch explicitly to the finance agent, so the code
agent entry (whose text generator is not needed for any claim) answers
with the empty text. -/
def finance_only_agents : String → List Char → List Char :=
  fun name q => if name = "finance" then finance_generate_response q else []

/-- A chat message of the OpenAI-compatible API (api/models.py). -/
structure ChatMessage where
  role : String
  content : String
deriving DecidableEq

/-- A chat-completion request (api/models.py): the ordered message
list and the requested model identifier. -/
structure ChatCompletionRequest where
  messages : List ChatMessage
  model : String
deriving DecidableEq

/-- An HTTP exception as raised in api/routes.py: a status code and a
detail message. -/
structure HTTPException where
  status_code : Nat
  detail : String
deriving DecidableEq

/-- Embeds Python str(e) for a FastAPI HTTPException, which renders as
the status code, a colon and the detail. -/
def httpExceptionStr (e : HTTPException) : String :=
  toString e.status_code ++ ": " ++ e.detail

/-- Embeds the body of the try block of the chat_completions route
(routes.py lines 45-98): an empty message list raises an HTTPException
with status 400; otherwise the content of the last message is
dispatched through the orchestrator (given here as the oracle dispatch
from query and model to response content) and the response is built
from the returned content. -/
def chat_completions_body (dispatch : String → String → String)
    (req : ChatCompletionRequest) : Except HTTPException String :=
  if req.messages.isEmpty then
    Except.error ⟨400, "Messages cannot be empty"⟩
  else
    Except.ok (dispatch (req.messages.getLastD ⟨"", ""⟩).content req.model)

/-- Embeds the chat_completions route (routes.py lines 42-102) with
Python try/except semantics: the except clause at line 100 catches
every Exception, including the HTTPException raised for an empty
message list inside the try block, and re-raises it as an HTTPException
with status 500 whose detail wraps str(e). -/
def chat_completions (dispatch : String → String → String)
    (req : ChatCompletionRequest) : Except HTTPException String :=
  match chat_completions_body dispatch req with
  | Except.error e =>
      Except.error ⟨500, "Internal server error: " ++ httpExceptionStr e⟩
  | Except.ok r => Except.ok r

/-! Helper lemmas shared by the claim theorems. -/

/-- Filtering a list twice with the same predicate equals filtering it
once. -/
theorem filter_idem {α : Type} (p : α → Bool) (l : List α) :
    (l.filter p).filter p = l.filter p := by
  induction l with
  | nil => rfl
  | cons x t ih => by_cases h : p x <;> simp [List.filter_cons, h, ih]

/-- Every element of a filtered list satisfies the filter predicate. -/
theorem filter_all {α : Type} (p : α → Bool) (l : List α) :
    (l.filter p).all p = true := by
  rw [List.all_eq_true]
  intro x hx
  exact List.of_mem_filter hx

/-- The confidence produced by the validation step is clamped into the
unit interval on both branches of the unknown-primary check. -/
theorem validate_confidence_bounds (a : Analysis) :
    0 ≤ (validate_analysis a).confidence ∧
      (validate_analysis a).confidence ≤ 1 := by
  unfold validate_analysis
  dsimp only
  split
  · exact ⟨le_max_left 0 _, max_le (by norm_num) (min_le_left _ _)⟩
  · norm_num

/-- The primary agent produced by the validation step is always a
registered identifier. -/
theorem validate_primary_mem (a : Analysis) :
    (validate_analysis a).primary_agent ∈ valid_agents := by
  unfold validate_analysis
  dsimp only
  split
  · next h => exact h
  · decide

/-- The validation step leaves a decision unchanged when the decision
already satisfies the properties validation establishes. -/
theorem validate_fixed (v : Validated)
    (hp : v.primary_agent ∈ valid_agents)
    (h0 : 0 ≤ v.confidence) (h1 : v.confidence ≤ 1)
    (hs : v.secondary_agents.filter (sec_pred v.primary_agent) =
      v.secondary_agents) :
    validate_analysis (toAnalysis v) = v := by
  obtain ⟨p, c, m, s, r, qt, kt⟩ := v
  unfold validate_analysis toAnalysis
  dsimp only [Option.getD_some]
  rw [if_pos hp]
  dsimp only at hs ⊢
  rw [min_eq_right h1, max_eq_right h0, hs]

/-- One word joined is itself. -/
theorem joinWords_single (w : List Char) : joinWords [w] = w := rfl

/-- Joining a list of at least two words prepends the first word and a
space. -/
theorem joinWords_pair (w x : List Char) (t : List (List Char)) :
    joinWords (w :: x :: t) = w ++ ' ' :: joinWords (x :: t) := rfl

/-- Concatenating the chunks emitted by the streaming loop yields the
word list joined by single spaces. -/
theorem chunks_flatten (ws : List (List Char)) :
    (buildChunks ws).flatten = joinWords ws := by
  induction ws using buildChunks.induct with
  | case1 => rfl
  | case2 w1 w2 w3 w4 w5 w6 rest ih =>
    simp [buildChunks, joinWords_pair, joinWords_single, ih,
      List.append_assoc]
  | case3 ws h1 h2 =>
    simp [buildChunks]

/-! Claim theorems. -/

/-- Claim C1: for every analysis dictionary, the confidence of the
validated decision lies in the closed unit interval; an input
confidence of 5.0 is clamped to 1.0, an input confidence of -1 is
clamped to 0.0, and a missing confidence field is replaced by the
in-range default 0.5. -/
theorem C1_validate_confidence_in_unit_interval :
    (∀ a : Analysis, 0 ≤ (validate_analysis a).confidence ∧
      (validate_analysis a).confidence ≤ 1)
    ∧ (validate_analysis ⟨none, some 5, none, none, none, none,
        none⟩).confidence = 1
    ∧ (validate_analysis ⟨none, some (-1), none, none, none, none,
        none⟩).confidence = 0
    ∧ (validate_analysis ⟨none, none, none, none, none, none,
        none⟩).confidence = 1/2 :=
  ⟨validate_confidence_bounds,
    by simp [validate_analysis, valid_agents],
    by simp [validate_analysis, valid_agents],
    by simp [validate_analysis, valid_agents]; norm_num⟩

/-- Claim C2: the keyword classifier routes by comparing the finance
and code keyword scores of the lower-cased query: a strictly larger
finance score gives primary finance with confidence
min 0.8 (0.4 + 0.1 * finance_score), a strictly larger code score gives
primary code symmetrically, and a tie gives primary finance with
confidence exactly 0.3; the empty query has both scores zero and so
takes the tie path. -/
theorem C2_fallback_scores_and_confidence :
    (∀ q : List Char,
      ((fallback_analysis q).primary_agent =
        if code_score q < finance_score q then "finance"
        else if finance_score q < code_score q then "code"
        else "finance")
      ∧ ((fallback_analysis q).confidence =
        if code_score q < finance_score q then
          min (8/10) (4/10 + (finance_score q : ℚ) * (1/10))
        else if finance_score q < code_score q then
          min (8/10) (4/10 + (code_score q : ℚ) * (1/10))
        else 3/10))
    ∧ finance_score [] = 0 ∧ code_score [] = 0
    ∧ (fallback_analysis []).primary_agent = "finance"
    ∧ (fallback_analysis []).confidence = 3/10 :=
  ⟨fun _ => ⟨rfl, rfl⟩, by decide, by decide, by decide, rfl⟩

/-- Claim C3 counterexample: the validation step performs no
deduplication, so the analysis dictionary whose secondary_agents entry
is the pair of identical registered identifiers code, code (with
primary agent finance) validates to a secondary_agents list that still
contains the duplicate. -/
theorem C3_counterexample_duplicate_survives :
    ¬ ((validate_analysis ⟨some "finance", none, none,
      some ["code", "code"], none, none, none⟩).secondary_agents.Nodup) := by
  decide

/-- Claim C3 amended: for every analysis dictionary, every entry of the
validated secondary_agents list is a registered agent identifier
different from the validated primary agent (the filter of the
validation step); duplicates, however, are preserved rather than
removed. -/
theorem C3_validate_secondary_filtered :
    ∀ a : Analysis,
      (validate_analysis a).secondary_agents.all
        (sec_pred (validate_analysis a).primary_agent) = true :=
  fun _ => filter_all _ _

/-- Claim C4 counterexample: dispatching the query invest explicitly to
the finance agent returns canned text containing newlines, and the
concatenation of the streaming chunks of that same dispatch differs
from the non-streaming response (the chunker rejoins whitespace-split
words with single spaces). -/
theorem C4_counterexample_stream_differs :
    (process_query_stream fallback_analysis (fun _ _ => [])
      finance_only_agents "invest".data "finance-agent").flatten ≠
    (process_query fallback_analysis (fun _ _ => [])
      finance_only_agents "invest".data "finance-agent").response := by
  decide

/-- Claim C4 amended: for every router, agent table, query and context
model, the concatenation of the chunks yielded by the streaming
dispatch equals the whitespace-normalised non-streaming response: its
whitespace-split words rejoined with single spaces.  It therefore
equals the non-streaming text exactly when that text has no leading,
trailing, repeated or non-space whitespace. -/
theorem C4_stream_concat_normalises :
    ∀ (analyze : List Char → Validated)
      (routeMulti : List Char → Validated → List Char)
      (agents : String → List Char → List Char)
      (q : List Char) (m : String),
      (process_query_stream analyze routeMulti agents q m).flatten =
        joinWords (pySplit
          (process_query analyze routeMulti agents q m).response) :=
  fun _ _ _ _ _ => chunks_flatten _

/-- Claim C5: for every router, agent table and query, a context whose
model field names a reserved agent identifier dispatches directly to
that agent with the router left uninvoked: the result is the agent's
own response with router_called false, independent of the router
oracles. -/
theorem C5_explicit_agent_bypasses_router :
    ∀ (analyze : List Char → Validated)
      (routeMulti : List Char → Validated → List Char)
      (agents : String → List Char → List Char) (q : List Char),
      process_query analyze routeMulti agents q "finance-agent" =
        ⟨agents "finance" q, "finance", false⟩
      ∧ process_query analyze routeMulti agents q "code-agent" =
        ⟨agents "code" q, "code", false⟩ := by
  intro analyze routeMulti agents q
  constructor
  · rfl
  · unfold process_query
    rw [if_neg (by decide), if_pos rfl]

/-- Claim C6: the keyword classifier marks a query multi-domain exactly
when both scores are positive, and its secondary_agents list is the
singleton holding the non-primary agent when multi-domain and empty
otherwise. -/
theorem C6_fallback_multi_domain_secondary :
    ∀ q : List Char,
      ((fallback_analysis q).is_multi_domain = true ↔
        (0 < finance_score q ∧ 0 < code_score q))
      ∧ ((fallback_analysis q).secondary_agents =
        if (fallback_analysis q).is_multi_domain then
          [if (fallback_analysis q).primary_agent = "finance" then "code"
           else "finance"]
        else []) :=
  fun q => ⟨by simp [fallback_analysis], rfl⟩

/-- Claim C7 counterexample: the validation step copies is_multi_domain
from its input without checking secondary_agents, so the analysis
dictionary with is_multi_domain true and an empty secondary_agents list
validates to a decision that is marked multi-domain yet has no
secondary agent. -/
theorem C7_counterexample_multi_without_secondary :
    (validate_analysis ⟨none, none, some true, some ([] : List String),
      none, none, none⟩).is_multi_domain = true
    ∧ (validate_analysis ⟨none, none, some true, some ([] : List String),
      none, none, none⟩).secondary_agents = [] := by
  decide

/-- Claim C7 amended: the keyword classifier satisfies the invariant
(its multi-domain flag equals the nonemptiness of its secondary_agents
list), but the validation step merely passes the input is_multi_domain
flag through (defaulting to false), so validated decisions can be
marked multi-domain with no valid secondary agent. -/
theorem C7_multi_domain_invariant_fallback_only :
    (∀ q : List Char, (fallback_analysis q).is_multi_domain =
      !((fallback_analysis q).secondary_agents.isEmpty))
    ∧ (∀ a : Analysis, (validate_analysis a).is_multi_domain =
      a.is_multi_domain.getD false) := by
  constructor
  · intro q
    unfold fallback_analysis
    dsimp only
    by_cases hf : 0 < finance_score q <;>
      by_cases hc : 0 < code_score q <;> simp [hf, hc]
  · intro a
    rfl

/-- Claim C8 counterexample: the keyword bot is an element of both the
finance keyword list and the code keyword list, so the two lists are
not disjoint. -/
theorem C8_counterexample_bot_shared :
    "bot" ∈ finance_keywords ∧ "bot" ∈ code_keywords := by
  decide

/-- Claim C8 amended: the two keyword lists share exactly one entry,
the keyword bot; every other finance keyword is absent from the code
keyword list. -/
theorem C8_keyword_lists_overlap_exactly_bot :
    finance_keywords.filter (fun k => decide (k ∈ code_keywords)) =
      ["bot"] := by
  decide

/-- Claim C9: evaluating the chat-completions route on a request with
an empty message list yields an HTTP 500 internal-server-error
response, for every orchestrator behaviour and requested model: the 400
bad-request exception raised for the empty list is caught by the
blanket exception handler and re-raised with status 500. -/
theorem C9_empty_messages_yields_500 :
    ∀ (dispatch : String → String → String) (model : String),
      chat_completions dispatch ⟨[], model⟩ =
        Except.error ⟨500,
          "Internal server error: 400: Messages cannot be empty"⟩ :=
  fun _ _ => rfl

/-- Claim C10: the validation step is idempotent: re-validating the
dictionary it returns changes nothing. -/
theorem C10_validate_idempotent :
    ∀ a : Analysis,
      validate_analysis (toAnalysis (validate_analysis a)) =
        validate_analysis a :=
  fun a =>
    validate_fixed _ (validate_primary_mem a)
      (validate_confidence_bounds a).1 (validate_confidence_bounds a).2
      (filter_idem _ _)

end BookAI
